import Mathlib

/-!
Verification of `eagle-dev/releasing/execution.py` from `incubator-eagle`.

The file under scrutiny defines a single helper:

```python
def is_windows():
    s = platform.system().lower()
    return s.startswith("win")
```

We embed Python strings as lists of characters (a Python `str` is a
sequence of code points), Python's `str.lower` character map on the ASCII
range (platform family names reported by `platform.system()` — "Windows",
"Linux", "Darwin", "win32", … — are ASCII), `str.startswith` as a list
prefix test, and the ambient environment read `platform.system()` as an
explicit state-passing operation over an environment record.
-/

namespace Execution

/-- Python's `str.lower` on one character, on the ASCII range: the
uppercase letters `A`–`Z` (code points 65–90) map 32 code points up to
`a`–`z`; every other ASCII character is unchanged. -/
def pyLowerChar (c : Char) : Char :=
  if 65 ≤ c.toNat ∧ c.toNat ≤ 90 then Char.ofNat (c.toNat + 32) else c

/-- Python's `str.upper` on one character, on the ASCII range: the
lowercase letters `a`–`z` (code points 97–122) map 32 code points down to
`A`–`Z`; every other ASCII character is unchanged. -/
def pyUpperChar (c : Char) : Char :=
  if 97 ≤ c.toNat ∧ c.toNat ≤ 122 then Char.ofNat (c.toNat - 32) else c

/-- Python `s.lower()`: lowercase every character of the string. -/
def pyLower (s : List Char) : List Char := s.map pyLowerChar

/-- Python `s.upper()`: uppercase every character of the string. -/
def pyUpper (s : List Char) : List Char := s.map pyUpperChar

/-- Python `s.startswith(p)`: `p` is an initial segment of `s`. -/
def pyStartswith (s p : List Char) : Bool := p.isPrefixOf s

/-- The pure core of `is_windows` from `execution.py`, as a function of
the platform identifier string `s` returned by `platform.system()`:

```python
s = platform.system().lower()
return s.startswith("win")
``` -/
def is_windows (s : List Char) : Bool :=
  pyStartswith (pyLower s) ['w', 'i', 'n']

/-- The ambient environment visible to the script: the platform family
name the runtime reports.  `is_windows` reads it and nothing else. -/
structure Env where
  platformName : List Char

/-- `platform.system()`: a pure read of the platform name out of the
ambient environment, returning the name and the (unchanged) environment. -/
def platform_system (e : Env) : List Char × Env := (e.platformName, e)

/-- `is_windows()` as a state-passing computation over the ambient
environment: query `platform.system()`, lowercase the result, test the
`"win"` prefix, and return the boolean together with the environment as
the call leaves it. -/
def is_windows_run (e : Env) : Bool × Env :=
  let p := platform_system e
  let s := pyLower p.1
  (pyStartswith s ['w', 'i', 'n'], p.2)

/-! ### Character-level facts about the ASCII case maps -/

/-- `Char.ofNat` applied to a valid low code point reads back as itself. -/
theorem toNat_ofNat_of_lt (n : Nat) (h : n < 0xd800) :
    (Char.ofNat n).toNat = n := by
  have hv : n.isValidChar := Or.inl h
  rw [Char.ofNat, dif_pos hv]
  simp [Char.ofNatAux, Char.toNat, UInt32.toNat]

/-- Lowercasing a character twice is the same as lowercasing it once. -/
theorem pyLowerChar_idem (c : Char) :
    pyLowerChar (pyLowerChar c) = pyLowerChar c := by
  unfold pyLowerChar
  by_cases h : 65 ≤ c.toNat ∧ c.toNat ≤ 90
  · rw [if_pos h]
    have ht : (Char.ofNat (c.toNat + 32)).toNat = c.toNat + 32 :=
      toNat_ofNat_of_lt _ (by omega)
    rw [if_neg (by rw [ht]; omega)]
  · rw [if_neg h, if_neg h]

/-- Lowercasing after uppercasing is the same as lowercasing directly. -/
theorem pyLowerChar_pyUpperChar (c : Char) :
    pyLowerChar (pyUpperChar c) = pyLowerChar c := by
  unfold pyLowerChar pyUpperChar
  by_cases h : 97 ≤ c.toNat ∧ c.toNat ≤ 122
  · rw [if_pos h]
    have ht : (Char.ofNat (c.toNat - 32)).toNat = c.toNat - 32 :=
      toNat_ofNat_of_lt _ (by omega)
    rw [if_pos (by rw [ht]; omega), ht]
    have hn : c.toNat - 32 + 32 = c.toNat := by omega
    rw [hn, Char.ofNat_toNat, if_neg (by omega)]
  · rw [if_neg h]

/-- `pyLower` is idempotent on strings. -/
theorem pyLower_pyLower (s : List Char) : pyLower (pyLower s) = pyLower s := by
  unfold pyLower
  rw [List.map_map]
  exact List.map_congr_left fun c _ => pyLowerChar_idem c

/-- `pyLower` after `pyUpper` is `pyLower`. -/
theorem pyLower_pyUpper (s : List Char) : pyLower (pyUpper s) = pyLower s := by
  unfold pyLower pyUpper
  rw [List.map_map]
  exact List.map_congr_left fun c _ => pyLowerChar_pyUpperChar c

/-- `is_windows` only inspects the first three characters of its input. -/
theorem is_windows_take (s : List Char) :
    is_windows s = is_windows (s.take 3) := by
  unfold is_windows pyStartswith pyLower
  rw [Bool.eq_iff_iff, List.isPrefixOf_iff_prefix, List.isPrefixOf_iff_prefix,
    List.map_take, List.prefix_take_iff]
  constructor
  · intro h
    exact ⟨h, by simp⟩
  · intro h
    exact h.1

/-! ### The claims -/

/-- C1: for every platform-name string `s`, `is_windows` returns `true`
iff the lowercased form of `s` starts with the literal prefix `"win"`,
i.e. iff the lowercased string is `'w' :: 'i' :: 'n' ::` some tail. -/
theorem is_windows_iff_lower_starts_with_win (s : List Char) :
    is_windows s = true ↔ ∃ t, pyLower s = 'w' :: 'i' :: 'n' :: t := by
  unfold is_windows pyStartswith
  rw [List.isPrefixOf_iff_prefix]
  constructor
  · rintro ⟨t, ht⟩
    exact ⟨t, ht.symm⟩
  · rintro ⟨t, ht⟩
    exact ⟨t, ht.symm⟩

/-- C1 witness: at `s = "Windows"`, `is_windows` is `true` and the
lowercased string indeed decomposes as `"win"` followed by `"dows"`. -/
theorem is_windows_iff_lower_starts_with_win_witness :
    ∃ t, pyLower "Windows".data = 'w' :: 'i' :: 'n' :: t :=
  (is_windows_iff_lower_starts_with_win "Windows".data).mp (by decide)

/-- C2: `is_windows` returns `true` on each of the platform identifiers
`"WINDOWS"`, `"Windows"`, `"windows"` and `"win32"`. -/
theorem is_windows_positive_cases :
    is_windows "WINDOWS".data = true ∧ is_windows "Windows".data = true ∧
    is_windows "windows".data = true ∧ is_windows "win32".data = true := by
  decide

/-- C3: `is_windows` returns `false` on `"Linux"`, on `"Darwin"`, and on
the empty string. -/
theorem is_windows_negative_cases :
    is_windows "Linux".data = false ∧ is_windows "Darwin".data = false ∧
    is_windows "".data = false := by
  decide

/-- C4: determinism — the result of a call is a function of the current
platform identifier alone, and two successive invocations with no
environment change in between return the same boolean. -/
theorem is_windows_deterministic (e : Env) :
    (is_windows_run e).1 = is_windows e.platformName ∧
    (is_windows_run ((is_windows_run e).2)).1 = (is_windows_run e).1 :=
  ⟨rfl, rfl⟩

/-- C5: no side effects — the environment after a call to `is_windows`
is exactly the environment before the call; the call is a pure read. -/
theorem is_windows_no_side_effects (e : Env) :
    (is_windows_run e).2 = e := rfl

/-- C6: totality — on every platform identifier string, `is_windows`
returns a boolean (it is a total function with no failing branch). -/
theorem is_windows_total (s : List Char) :
    is_windows s = true ∨ is_windows s = false := by
  cases h : is_windows s
  · exact Or.inr rfl
  · exact Or.inl rfl

/-- C7: freshness — each invocation reads the platform identifier current
at call time: the result of any call is determined by the environment's
current platform name, and after a prior call, a call under a changed
platform name reports the value for the new name (no memoization). -/
theorem is_windows_fresh_read (e : Env) (n : List Char) :
    (is_windows_run e).1 = is_windows e.platformName ∧
    (is_windows_run { (is_windows_run e).2 with platformName := n }).1 =
      is_windows n :=
  ⟨rfl, rfl⟩

/-- C8: every platform identifier shorter than three characters is
classified as non-Windows. -/
theorem is_windows_short_false (s : List Char) (h : s.length < 3) :
    is_windows s = false := by
  unfold is_windows pyStartswith
  rw [Bool.eq_false_iff]
  intro hc
  rw [List.isPrefixOf_iff_prefix] at hc
  have hl := hc.length_le
  simp [pyLower] at hl
  omega

/-- C8 witness: the two-character string `"wi"` has length `< 3` and is
classified as non-Windows. -/
theorem is_windows_short_false_witness :
    ("wi".data.length < 3) ∧ is_windows "wi".data = false :=
  ⟨by decide, is_windows_short_false "wi".data (by decide)⟩

/-- C9: case invariance — for every string `s`, `is_windows` gives the
same answer on `s`, on its lowercased form, and on its uppercased form. -/
theorem is_windows_case_invariant (s : List Char) :
    is_windows (pyLower s) = is_windows s ∧
    is_windows (pyUpper s) = is_windows s := by
  constructor
  · unfold is_windows
    rw [pyLower_pyLower]
  · unfold is_windows
    rw [pyLower_pyUpper]

/-- C10: the result depends only on the `"win"` prefix: extending a
string classified as Windows by any suffix keeps it classified as
Windows, and two strings agreeing on their first three characters are
classified alike — so e.g. `"winter"` counts as Windows. -/
theorem is_windows_extension (s t : List Char) :
    (is_windows s = true → is_windows (s ++ t) = true) ∧
    (s.take 3 = t.take 3 → is_windows s = is_windows t) := by
  constructor
  · intro h
    unfold is_windows pyStartswith at h ⊢
    rw [List.isPrefixOf_iff_prefix] at h ⊢
    unfold pyLower
    rw [List.map_append]
    exact h.trans (List.prefix_append _ _)
  · intro h
    rw [is_windows_take s, is_windows_take t, h]

/-- C10 witness: `"win" ++ "ter"` (i.e. `"winter"`) is classified as
Windows, and `"winter"` and `"windy"`, agreeing on their first three
characters, are classified alike. -/
theorem is_windows_extension_witness :
    is_windows ("win".data ++ "ter".data) = true ∧
    is_windows "winter".data = is_windows "windy".data :=
  ⟨(is_windows_extension "win".data "ter".data).1 (by decide),
   (is_windows_extension "winter".data "windy".data).2 (by decide)⟩

end Execution
